import Mathlib

/-!
Shallow embedding of `src/main.rs` of the solana-grpc-listener repository:
a streaming-feed client that builds one filtered subscription request,
sends it, runs a periodic heartbeat task, and dispatches inbound frames
to per-kind handlers.
-/

/-- Static configuration constant `PING_INTERVAL_SECS` from `main.rs`. -/
def PING_INTERVAL_SECS : Nat := 30

/-- Static configuration constant `GRPC_ENDPOINT` from `main.rs`. -/
def GRPC_ENDPOINT : String := "https://api.rpcpool.com:443"

/-- Mirrors `yellowstone_grpc_proto::geyser::AccountFilter` as used in `main.rs`:
`account` is a list of address strings, `owner` a list of owner addresses. -/
structure AccountFilter where
  account : List String
  owner : List String
  deriving Repr, DecidableEq

/-- Mirrors `subscribe_request::Accounts`: a list of account filters. -/
structure Accounts where
  filters : List AccountFilter
  deriving Repr, DecidableEq

/-- Mirrors `yellowstone_grpc_proto::geyser::TransactionFilter`:
optional `vote` and `failed` booleans. -/
structure TransactionFilter where
  vote : Option Bool
  failed : Option Bool
  deriving Repr, DecidableEq

/-- Mirrors `subscribe_request::Transactions`: a list of transaction filters. -/
structure Transactions where
  filters : List TransactionFilter
  deriving Repr, DecidableEq

/-- Mirrors `yellowstone_grpc_proto::geyser::CommitmentLevel`. -/
inductive CommitmentLevel where
  | processed
  | confirmed
  | finalized
  deriving Repr, DecidableEq

/-- The `as i32` cast of a `CommitmentLevel`, with the proto tag numbers
(Processed = 0, Confirmed = 1, Finalized = 2). -/
def CommitmentLevel.toI32 : CommitmentLevel → Int
  | .processed => 0
  | .confirmed => 1
  | .finalized => 2

/-- Mirrors `yellowstone_grpc_proto::geyser::Ping`: a single `u64` id. -/
structure Ping where
  id : Nat
  deriving Repr, DecidableEq

/-- Mirrors `SubscribeRequest` as used in `main.rs`: four independent optional
sections plus the commitment tag (an `i32`) and the optional ping payload. -/
structure SubscribeRequest where
  accounts : Option Accounts
  transactions : Option Transactions
  slots : Option Unit
  commitment : Int
  ping : Option Ping
  deriving Repr, DecidableEq

/-- Mirrors `SubscribeRequest::default()` (Rust `..Default::default()`):
every optional section absent, commitment tag 0. -/
def SubscribeRequest.default : SubscribeRequest :=
  { accounts := none
    transactions := none
    slots := none
    commitment := 0
    ping := none }

/-- The subscription literal built at `main.rs` lines 40-69: one account filter
on the configured USDC address with no owner constraint, one transaction filter
excluding votes and failures, slots enabled, commitment Confirmed. -/
def subscribe_request : SubscribeRequest :=
  { SubscribeRequest.default with
    accounts := some
      { filters := [{ account := ["9wFFyRfZBsuAha4YcuxcXLKwMxJR43S7fPfQLusDBzvT"]
                      owner := [] }] }
    transactions := some
      { filters := [{ vote := some false, failed := some false }] }
    slots := some ()
    commitment := CommitmentLevel.confirmed.toI32 }

/-- Mirrors `SystemTime::now().duration_since(UNIX_EPOCH)` at a clock reading of
`now` seconds relative to the Unix epoch: `Err` (here `none`) exactly when the
clock reads earlier than the epoch, otherwise the elapsed whole seconds. -/
def duration_since_epoch (now : Int) : Option Nat :=
  if 0 ≤ now then some now.toNat else none

/-- The heartbeat request built at `main.rs` lines 82-90 when the clock reads
`now` seconds from the epoch: a default request whose `ping` id is the current
Unix seconds.  `none` models the `unwrap` panic when `duration_since` fails. -/
def ping_request (now : Int) : Option SubscribeRequest :=
  (duration_since_epoch now).map fun secs =>
    { SubscribeRequest.default with ping := some { id := secs } }

/-- Mirrors an account-update entry of an inbound frame: the fields the
dispatcher reads (`pubkey`, `slot`, `data`). -/
structure AccountUpdate where
  pubkey : String
  slot : Nat
  data : List Nat
  deriving Repr, DecidableEq

/-- Mirrors the `accounts` group of an inbound message: a batch of
account-update entries. -/
structure AccountsGroup where
  accounts : List AccountUpdate
  deriving Repr, DecidableEq

/-- Mirrors a transaction-update entry: the fields the dispatcher reads
(`signature`, `slot`, `success`, `fee`). -/
structure TransactionUpdate where
  signature : String
  slot : Nat
  success : Bool
  fee : Nat
  deriving Repr, DecidableEq

/-- Mirrors the `transactions` group of an inbound message: a batch of
transaction-update entries. -/
structure TransactionsGroup where
  transactions : List TransactionUpdate
  deriving Repr, DecidableEq

/-- Mirrors a slot-update entry: slot number, parent slot, and status tag. -/
structure SlotUpdate where
  slot : Nat
  parent : Nat
  status : Nat
  deriving Repr, DecidableEq

/-- Mirrors the `slots` group of an inbound message: a batch of slot-update
entries. -/
structure SlotsGroup where
  slots : List SlotUpdate
  deriving Repr, DecidableEq

/-- Mirrors `Pong`: echoes a ping id. -/
structure Pong where
  id : Nat
  deriving Repr, DecidableEq

/-- Mirrors the inbound message consumed by the dispatch loop: four
independently optional groups, any subset of which may be populated. -/
structure InboundFrame where
  accounts : Option AccountsGroup
  transactions : Option TransactionsGroup
  slots : Option SlotsGroup
  pong : Option Pong
  deriving Repr, DecidableEq

/-- One observation emitted by the dispatcher: the log line produced for one
entry of one group, carrying the fields `main.rs` prints. -/
inductive Observation where
  | accountUpdate (pubkey : String) (slot : Nat) (dataLen : Nat)
  | txUpdate (signature : String) (slot : Nat) (success : Bool) (fee : Nat)
  | slotUpdate (slot : Nat) (parent : Nat) (status : Nat)
  | pong (id : Nat)
  deriving Repr, DecidableEq

/-- True exactly on account-update observations. -/
def Observation.isAccount : Observation → Bool
  | .accountUpdate _ _ _ => true
  | _ => false

/-- True exactly on transaction-update observations. -/
def Observation.isTx : Observation → Bool
  | .txUpdate _ _ _ _ => true
  | _ => false

/-- True exactly on slot-update observations. -/
def Observation.isSlot : Observation → Bool
  | .slotUpdate _ _ _ => true
  | _ => false

/-- True exactly on pong observations. -/
def Observation.isPong : Observation → Bool
  | .pong _ => true
  | _ => false

/-- The observation the dispatcher emits for one account entry
(`main.rs` lines 105-108). -/
def obsOfAccount (a : AccountUpdate) : Observation :=
  .accountUpdate a.pubkey a.slot a.data.length

/-- The observation the dispatcher emits for one transaction entry
(`main.rs` lines 115-119). -/
def obsOfTransaction (t : TransactionUpdate) : Observation :=
  .txUpdate t.signature t.slot t.success t.fee

/-- The observation the dispatcher emits for one slot entry
(`main.rs` lines 126-129). -/
def obsOfSlot (s : SlotUpdate) : Observation :=
  .slotUpdate s.slot s.parent s.status

/-- The dispatcher body for one frame (`main.rs` lines 102-136): four
sequential `if let` blocks over the four optional groups, each iterating
its batch in delivery order. -/
def dispatchFrame (msg : InboundFrame) : List Observation :=
  (match msg.accounts with
   | some g => g.accounts.map obsOfAccount
   | none => []) ++
  (match msg.transactions with
   | some g => g.transactions.map obsOfTransaction
   | none => []) ++
  (match msg.slots with
   | some g => g.slots.map obsOfSlot
   | none => []) ++
  (match msg.pong with
   | some p => [.pong p.id]
   | none => [])

/-- The dispatch loop over the frames a stream delivers before it ends:
observations of each frame, in frame order. -/
def dispatchLoop : List InboundFrame → List Observation
  | [] => []
  | f :: rest => dispatchFrame f ++ dispatchLoop rest

/-- How the receive stream ends: `clean` models `receiver.message()` returning
`None`; `recvErr e` models it returning an error `e`. -/
inductive StreamEnd where
  | clean
  | recvErr (e : String)
  deriving Repr, DecidableEq

/-- Exit of `main` after the dispatch loop (`main.rs` lines 101 and 139-140):
clean stream end gives `Ok(())`; a receive error is propagated fatally with
the `context` description attached. -/
def mainExit : StreamEnd → Except String Unit
  | .clean => .ok ()
  | .recvErr e => .error ("接收数据失败: " ++ e)

/-- One action of the main flow: sending an outbound request or emitting an
observation for an inbound entry. -/
inductive MainAction where
  | send (r : SubscribeRequest)
  | observe (o : Observation)
  deriving Repr, DecidableEq

/-- True exactly on send actions. -/
def MainAction.isSend : MainAction → Bool
  | .send _ => true
  | _ => false

/-- The ordered trace of the main flow (`main.rs` lines 72-137): the single
subscription send, then the dispatch loop's observations; the main flow
attempts no send afterwards. -/
def mainTrace (frames : List InboundFrame) : List MainAction :=
  MainAction.send subscribe_request :: (dispatchLoop frames).map .observe

/-- State of the heartbeat task (`main.rs` lines 79-98): `idle` while the loop
is live, `terminated` after the `break` taken on the first send failure. -/
inductive HeartbeatState where
  | idle
  | terminated
  deriving Repr, DecidableEq

/-- The heartbeat task over its first `n` ticks.  `clock k` is the wall-clock
Unix-seconds reading at tick `k`; `sendOk k` tells whether the `send` of tick
`k` succeeds.  Returns the task state after `n` ticks and the ids of the pings
sent so far, in send order: each live tick constructs a ping carrying the
current clock reading and sends it; the first failed send breaks the loop
permanently (`main.rs` lines 92-95). -/
def heartbeatRun (clock : Nat → Nat) (sendOk : Nat → Bool) :
    Nat → HeartbeatState × List Nat
  | 0 => (.idle, [])
  | n + 1 =>
    match heartbeatRun clock sendOk n with
    | (.terminated, ps) => (.terminated, ps)
    | (.idle, ps) =>
      if sendOk n then (.idle, ps ++ [clock n]) else (.terminated, ps)

/-- Tick times of `tokio::time::interval(p)` as used at `main.rs` line 77:
the first tick completes immediately and later ticks follow every `p`
time-units, so tick `k` fires at time `k * p`. -/
def tickTime (p k : Nat) : Nat := k * p

/-- Number of interval ticks that have fired once `d` time-units have elapsed
since the task started: the ticks at times `0, p, 2p, ...` not exceeding `d`,
that is `d / p + 1` (the immediate first tick included). -/
def ticksElapsedBy (p d : Nat) : Nat := d / p + 1

/-- Combined outcome of one session: the dispatcher's observations and exit,
and the heartbeat task's state and sent ping ids.  The two units share no
state in `main.rs` beyond the cloned sender, so the session is their
product: the dispatcher consumes `frames` then `ending`, while the heartbeat
task independently runs `ticks` ticks against `clock` and `sendOk`. -/
structure SessionResult where
  observations : List Observation
  exit : Except String Unit
  heartbeatState : HeartbeatState
  pings : List Nat
  deriving Repr

/-- One whole session of the program after the subscription send. -/
def sessionRun (frames : List InboundFrame) (ending : StreamEnd)
    (clock : Nat → Nat) (sendOk : Nat → Bool) (ticks : Nat) : SessionResult :=
  { observations := dispatchLoop frames
    exit := mainExit ending
    heartbeatState := (heartbeatRun clock sendOk ticks).1
    pings := (heartbeatRun clock sendOk ticks).2 }

/-! Helper lemmas about the heartbeat state machine. -/

/-- Once the heartbeat task is terminated, later ticks change nothing. -/
theorem heartbeatRun_term_frozen (clock : Nat → Nat) (sendOk : Nat → Bool)
    {n : Nat} (h : (heartbeatRun clock sendOk n).1 = .terminated) :
    ∀ j, heartbeatRun clock sendOk (n + j) = heartbeatRun clock sendOk n := by
  intro j
  induction j with
  | zero => rfl
  | succ j ih =>
    show heartbeatRun clock sendOk ((n + j) + 1) = _
    rw [heartbeatRun, ih]
    rcases hr : heartbeatRun clock sendOk n with ⟨st, ps⟩
    rw [hr] at h
    cases st with
    | terminated => simp
    | idle => simp at h

/-- The pings sent over the first `n` ticks are the clock readings of an
initial segment of ticks; while the task is still idle, that segment is all
`n` ticks. -/
theorem heartbeatRun_pings_spec (clock : Nat → Nat) (sendOk : Nat → Bool)
    (n : Nat) :
    ∃ m, m ≤ n ∧ (heartbeatRun clock sendOk n).2 = (List.range m).map clock ∧
      ((heartbeatRun clock sendOk n).1 = .idle → m = n) := by
  induction n with
  | zero => exact ⟨0, Nat.le_refl 0, rfl, fun _ => rfl⟩
  | succ n ih =>
    obtain ⟨m, hm, hp, hidle⟩ := ih
    rw [heartbeatRun]
    rcases hr : heartbeatRun clock sendOk n with ⟨st, ps⟩
    rw [hr] at hp hidle
    cases st with
    | terminated =>
      exact ⟨m, Nat.le_succ_of_le hm, hp, fun hc => by simp at hc⟩
    | idle =>
      have hmn : m = n := hidle rfl
      subst hmn
      by_cases hs : sendOk m = true
      · refine ⟨m + 1, Nat.succ_le_succ hm, ?_, fun _ => rfl⟩
        simp only [hs, if_true]
        simp only [List.range_succ, List.map_append, List.map_cons, List.map_nil]
        simp
        exact hp
      · simp only [Bool.not_eq_true] at hs
        refine ⟨m, Nat.le_succ_of_le hm, ?_, fun hc => ?_⟩
        · simp [hs, hp]
        · simp [hs] at hc

/-- A failed send at tick `k` terminates the heartbeat task permanently: at
every later tick count the state is terminated and no ping was added after
tick `k`. -/
theorem heartbeatRun_fail (clock : Nat → Nat) (sendOk : Nat → Bool) (k : Nat)
    (h : sendOk k = false) :
    ∀ n, k < n → (heartbeatRun clock sendOk n).1 = .terminated ∧
      (heartbeatRun clock sendOk n).2 = (heartbeatRun clock sendOk (k + 1)).2 := by
  have hterm : (heartbeatRun clock sendOk (k + 1)).1 = .terminated := by
    rw [heartbeatRun]
    rcases hr : heartbeatRun clock sendOk k with ⟨st, ps⟩
    cases st with
    | terminated => simp
    | idle => simp [h]
  intro n hkn
  have hn : n = (k + 1) + (n - (k + 1)) := by omega
  rw [hn, heartbeatRun_term_frozen clock sendOk hterm]
  exact ⟨hterm, rfl⟩

/-- Chains over the clock readings of an initial tick segment follow from the
corresponding step property of the clock. -/
theorem chain'_map_range_clock (S : Nat → Nat → Prop) (clock : Nat → Nat)
    (m : Nat) (h : ∀ i, S (clock i) (clock (i + 1))) :
    List.Chain' S ((List.range m).map clock) := by
  rw [List.chain'_map]
  cases m with
  | zero => simp
  | succ m =>
    rw [List.chain'_range_succ]
    intro i _
    exact h i

/-- Counting through a map whose image always satisfies the test counts every
element. -/
theorem countP_comp_eq_length {α β : Type} (p : β → Bool) (f : α → β)
    (h : ∀ a, p (f a) = true) (l : List α) : l.countP (p ∘ f) = l.length := by
  induction l with
  | nil => rfl
  | cons a l ih => simp [List.countP_cons, Function.comp, h, ih]

/-- Counting through a map whose image never satisfies the test counts
nothing. -/
theorem countP_comp_eq_zero {α β : Type} (p : β → Bool) (f : α → β)
    (h : ∀ a, p (f a) = false) (l : List α) : l.countP (p ∘ f) = 0 := by
  induction l with
  | nil => rfl
  | cons a l ih => simp [List.countP_cons, Function.comp, h, ih]

/-- Filtering through a map whose image always satisfies the test keeps every
element. -/
theorem filter_comp_eq_self {α β : Type} (p : β → Bool) (f : α → β)
    (h : ∀ a, p (f a) = true) (l : List α) : l.filter (p ∘ f) = l := by
  induction l with
  | nil => rfl
  | cons a l ih => simp [List.filter_cons, Function.comp, h, ih]

/-- Filtering through a map whose image never satisfies the test keeps
nothing. -/
theorem filter_comp_eq_nil {α β : Type} (p : β → Bool) (f : α → β)
    (h : ∀ a, p (f a) = false) (l : List α) : l.filter (p ∘ f) = [] := by
  induction l with
  | nil => rfl
  | cons a l ih => simp [List.filter_cons, Function.comp, h, ih]

@[simp] theorem countP_isAccount_obsOfAccount (l : List AccountUpdate) :
    l.countP (Observation.isAccount ∘ obsOfAccount) = l.length :=
  countP_comp_eq_length _ _ (fun _ => rfl) l

@[simp] theorem countP_isAccount_obsOfTransaction (l : List TransactionUpdate) :
    l.countP (Observation.isAccount ∘ obsOfTransaction) = 0 :=
  countP_comp_eq_zero _ _ (fun _ => rfl) l

@[simp] theorem countP_isAccount_obsOfSlot (l : List SlotUpdate) :
    l.countP (Observation.isAccount ∘ obsOfSlot) = 0 :=
  countP_comp_eq_zero _ _ (fun _ => rfl) l

@[simp] theorem countP_isTx_obsOfAccount (l : List AccountUpdate) :
    l.countP (Observation.isTx ∘ obsOfAccount) = 0 :=
  countP_comp_eq_zero _ _ (fun _ => rfl) l

@[simp] theorem countP_isTx_obsOfTransaction (l : List TransactionUpdate) :
    l.countP (Observation.isTx ∘ obsOfTransaction) = l.length :=
  countP_comp_eq_length _ _ (fun _ => rfl) l

@[simp] theorem countP_isTx_obsOfSlot (l : List SlotUpdate) :
    l.countP (Observation.isTx ∘ obsOfSlot) = 0 :=
  countP_comp_eq_zero _ _ (fun _ => rfl) l

@[simp] theorem countP_isSlot_obsOfAccount (l : List AccountUpdate) :
    l.countP (Observation.isSlot ∘ obsOfAccount) = 0 :=
  countP_comp_eq_zero _ _ (fun _ => rfl) l

@[simp] theorem countP_isSlot_obsOfTransaction (l : List TransactionUpdate) :
    l.countP (Observation.isSlot ∘ obsOfTransaction) = 0 :=
  countP_comp_eq_zero _ _ (fun _ => rfl) l

@[simp] theorem countP_isSlot_obsOfSlot (l : List SlotUpdate) :
    l.countP (Observation.isSlot ∘ obsOfSlot) = l.length :=
  countP_comp_eq_length _ _ (fun _ => rfl) l

@[simp] theorem countP_isPong_obsOfAccount (l : List AccountUpdate) :
    l.countP (Observation.isPong ∘ obsOfAccount) = 0 :=
  countP_comp_eq_zero _ _ (fun _ => rfl) l

@[simp] theorem countP_isPong_obsOfTransaction (l : List TransactionUpdate) :
    l.countP (Observation.isPong ∘ obsOfTransaction) = 0 :=
  countP_comp_eq_zero _ _ (fun _ => rfl) l

@[simp] theorem countP_isPong_obsOfSlot (l : List SlotUpdate) :
    l.countP (Observation.isPong ∘ obsOfSlot) = 0 :=
  countP_comp_eq_zero _ _ (fun _ => rfl) l

@[simp] theorem filter_isAccount_obsOfAccount (l : List AccountUpdate) :
    l.filter (Observation.isAccount ∘ obsOfAccount) = l :=
  filter_comp_eq_self _ _ (fun _ => rfl) l

@[simp] theorem filter_isAccount_obsOfTransaction (l : List TransactionUpdate) :
    l.filter (Observation.isAccount ∘ obsOfTransaction) = [] :=
  filter_comp_eq_nil _ _ (fun _ => rfl) l

@[simp] theorem filter_isAccount_obsOfSlot (l : List SlotUpdate) :
    l.filter (Observation.isAccount ∘ obsOfSlot) = [] :=
  filter_comp_eq_nil _ _ (fun _ => rfl) l

/-! Claim theorems. -/

/-- C1: under the static configuration, the subscription builder produces the
one request whose four sections are populated exactly as configured: a single
account filter on the configured address with empty owner, a single
transaction filter with vote = some false and failed = some false, slots
present, commitment Confirmed (and no ping payload). -/
theorem subscribe_request_built_as_configured :
    subscribe_request.accounts =
      some { filters := [{ account := ["9wFFyRfZBsuAha4YcuxcXLKwMxJR43S7fPfQLusDBzvT"]
                           owner := [] }] }
  ∧ subscribe_request.transactions =
      some { filters := [{ vote := some false, failed := some false }] }
  ∧ subscribe_request.slots = some ()
  ∧ subscribe_request.commitment = CommitmentLevel.confirmed.toI32
  ∧ subscribe_request.ping = none :=
  ⟨rfl, rfl, rfl, rfl, rfl⟩

/-- C2: in every execution the main flow's trace starts with the single send
of the subscription request, that send is the only send the main flow ever
performs (so it precedes every inbound-frame observation), and no heartbeat
ping ever equals the subscription request, so the subscription value is never
re-sent. -/
theorem subscription_sent_once_before_frames (frames : List InboundFrame) :
    (mainTrace frames).head? = some (.send subscribe_request)
  ∧ (mainTrace frames).filter MainAction.isSend = [.send subscribe_request]
  ∧ ∀ (now : Int) (r : SubscribeRequest),
      ping_request now = some r → r ≠ subscribe_request := by
  refine ⟨rfl, ?_, ?_⟩
  · simp only [mainTrace, List.filter_cons, List.filter_map]
    simp [MainAction.isSend, Function.comp]
  · intro now r hr heq
    obtain ⟨secs, _, hrr⟩ := Option.map_eq_some'.mp hr
    rw [← hrr] at heq
    have := congrArg SubscribeRequest.accounts heq
    simp [SubscribeRequest.default, subscribe_request] at this

/-- Witness for C2 at a concrete clock reading: the ping built at Unix second
7 differs from the subscription request. -/
theorem subscription_sent_once_before_frames_witness :
    ({ SubscribeRequest.default with ping := some { id := 7 } } :
      SubscribeRequest) ≠ subscribe_request :=
  (subscription_sent_once_before_frames []).2.2 7
    { SubscribeRequest.default with ping := some { id := 7 } } rfl

/-- C3: for every inbound frame, the dispatcher emits observations for every
populated group: the number of observations of each kind equals the size of
the corresponding group's batch (0 when the group is absent, and 1 for a
present pong). -/
theorem dispatch_covers_all_groups (f : InboundFrame) :
    (dispatchFrame f).countP Observation.isAccount
        = f.accounts.elim 0 (fun g => g.accounts.length)
  ∧ (dispatchFrame f).countP Observation.isTx
        = f.transactions.elim 0 (fun g => g.transactions.length)
  ∧ (dispatchFrame f).countP Observation.isSlot
        = f.slots.elim 0 (fun g => g.slots.length)
  ∧ (dispatchFrame f).countP Observation.isPong
        = f.pong.elim 0 (fun _ => 1) := by
  rcases f with ⟨a, t, s, p⟩
  refine ⟨?_, ?_, ?_, ?_⟩ <;>
    cases a <;> cases t <;> cases s <;> cases p <;>
      simp [dispatchFrame, List.countP_append, List.countP_map, Function.comp,
        Observation.isAccount, Observation.isTx, Observation.isSlot,
        Observation.isPong, obsOfAccount, obsOfTransaction, obsOfSlot]

/-- C4: for every inbound frame, the account-update observations the
dispatcher emits are exactly one per entry of the frame's account batch, in
the order the entries appear, and hence exactly N of them for a batch of N
entries. -/
theorem dispatch_accounts_exact_and_ordered (f : InboundFrame) :
    (dispatchFrame f).filter Observation.isAccount
        = (f.accounts.elim [] (fun g => g.accounts)).map obsOfAccount
  ∧ ((dispatchFrame f).filter Observation.isAccount).length
        = f.accounts.elim 0 (fun g => g.accounts.length) := by
  rcases f with ⟨a, t, s, p⟩
  refine ⟨?_, ?_⟩ <;>
    cases a <;> cases t <;> cases s <;> cases p <;>
      simp [dispatchFrame, List.filter_append, List.filter_map, Function.comp,
        Observation.isAccount, obsOfAccount, obsOfTransaction, obsOfSlot]

/-- C5: every ping id is the wall-clock Unix-seconds reading at its tick (the
ids are the clock readings of an initial tick segment); the id sequence is
non-decreasing whenever the clock does not move backward, and strictly
increasing when consecutive ticks are spaced at least one second apart. -/
theorem ping_ids_monotone (clock : Nat → Nat) (sendOk : Nat → Bool) (n : Nat) :
    (∃ m, m ≤ n ∧ (heartbeatRun clock sendOk n).2 = (List.range m).map clock)
  ∧ ((∀ i j, i ≤ j → clock i ≤ clock j) →
      List.Chain' (· ≤ ·) (heartbeatRun clock sendOk n).2)
  ∧ ((∀ i, clock i + 1 ≤ clock (i + 1)) →
      List.Chain' (· < ·) (heartbeatRun clock sendOk n).2) := by
  obtain ⟨m, hm, hp, _⟩ := heartbeatRun_pings_spec clock sendOk n
  refine ⟨⟨m, hm, hp⟩, ?_, ?_⟩
  · intro h
    rw [hp]
    exact chain'_map_range_clock _ _ _ (fun i => h i (i + 1) (Nat.le_succ i))
  · intro h
    rw [hp]
    exact chain'_map_range_clock _ _ _ (fun i => h i)

/-- Witness for C5 at a concrete session: clock advancing 2 seconds per tick,
all sends succeeding, 3 ticks. -/
theorem ping_ids_monotone_witness :
    List.Chain' (· ≤ ·) (heartbeatRun (fun k => 2 * k) (fun _ => true) 3).2
  ∧ List.Chain' (· < ·) (heartbeatRun (fun k => 2 * k) (fun _ => true) 3).2 :=
  ⟨(ping_ids_monotone (fun k => 2 * k) (fun _ => true) 3).2.1
      (fun i j h => by omega),
   (ping_ids_monotone (fun k => 2 * k) (fun _ => true) 3).2.2
      (fun i => by omega)⟩

/-- C6: the first failed heartbeat send terminates the heartbeat task
permanently — at every later tick count the state is terminated and no ping
was sent after the failing tick — while the dispatcher's observations and
exit are the same whatever the heartbeat send outcomes are. -/
theorem heartbeat_fail_stops_only_heartbeat (clock : Nat → Nat)
    (sendOk : Nat → Bool) (k : Nat) (hfail : sendOk k = false) :
    (∀ n, k < n → (heartbeatRun clock sendOk n).1 = .terminated ∧
        (heartbeatRun clock sendOk n).2 = (heartbeatRun clock sendOk (k + 1)).2)
  ∧ (∀ (frames : List InboundFrame) (ending : StreamEnd) (ticks : Nat)
        (sendOk2 : Nat → Bool),
      (sessionRun frames ending clock sendOk ticks).observations
          = (sessionRun frames ending clock sendOk2 ticks).observations
      ∧ (sessionRun frames ending clock sendOk ticks).exit
          = (sessionRun frames ending clock sendOk2 ticks).exit) :=
  ⟨heartbeatRun_fail clock sendOk k hfail, fun _ _ _ _ => ⟨rfl, rfl⟩⟩

/-- Witness for C6 at a concrete session: sends fail from tick 2 on, so after
5 ticks the heartbeat task is terminated and its pings are those of the first
3 ticks. -/
theorem heartbeat_fail_stops_only_heartbeat_witness :
    (heartbeatRun (fun k => k) (fun i => decide (i < 2)) 5).1
        = HeartbeatState.terminated
  ∧ (heartbeatRun (fun k => k) (fun i => decide (i < 2)) 5).2
      = (heartbeatRun (fun k => k) (fun i => decide (i < 2)) 3).2 :=
  (heartbeat_fail_stops_only_heartbeat (fun k => k) (fun i => decide (i < 2)) 2
    (by decide)).1 5 (by omega)

/-- C7: the dispatch loop's exit is decided by how the stream ends — a clean
end (`None`) exits with success, a receive error exits fatally with the
receive-phase context attached — and the main flow attempts no send after
its initial subscription send. -/
theorem dispatch_loop_exit (frames : List InboundFrame) (clock : Nat → Nat)
    (sendOk : Nat → Bool) (ticks : Nat) :
    (sessionRun frames .clean clock sendOk ticks).exit = .ok ()
  ∧ (∀ e, (sessionRun frames (.recvErr e) clock sendOk ticks).exit
        = .error ("接收数据失败: " ++ e))
  ∧ (∀ a ∈ (mainTrace frames).tail, MainAction.isSend a = false) := by
  refine ⟨rfl, fun _ => rfl, ?_⟩
  intro a ha
  simp only [mainTrace, List.tail_cons, List.mem_map] at ha
  obtain ⟨o, _, rfl⟩ := ha
  rfl

/-- Witness for C7 at a concrete stream: in the session consuming one
pong-only frame, the action following the subscription send is not a send. -/
theorem dispatch_loop_exit_witness :
    MainAction.isSend (.observe (.pong 7)) = false :=
  (dispatch_loop_exit
      [{ accounts := none, transactions := none, slots := none
         pong := some { id := 7 } }] (fun k => k) (fun _ => true) 0).2.2
    (.observe (.pong 7))
    (by simp [mainTrace, dispatchLoop, dispatchFrame])

/-- C8: a frame with all four groups absent yields zero observations, and the
session over that frame followed by any rest is identical to the session over
the rest alone — the loop continues rather than terminating. -/
theorem empty_frame_zero_obs_loop_continues (f : InboundFrame)
    (h1 : f.accounts = none) (h2 : f.transactions = none)
    (h3 : f.slots = none) (h4 : f.pong = none) :
    dispatchFrame f = []
  ∧ ∀ (rest : List InboundFrame) (ending : StreamEnd) (clock : Nat → Nat)
      (sendOk : Nat → Bool) (ticks : Nat),
      sessionRun (f :: rest) ending clock sendOk ticks
        = sessionRun rest ending clock sendOk ticks := by
  have hd : dispatchFrame f = [] := by
    simp [dispatchFrame, h1, h2, h3, h4]
  refine ⟨hd, ?_⟩
  intro rest ending clock sendOk ticks
  simp [sessionRun, dispatchLoop, hd]

/-- Witness for C8 at a concrete frame: the all-absent frame yields no
observation and leaves the session over a later pong frame unchanged. -/
theorem empty_frame_zero_obs_loop_continues_witness :
    dispatchFrame
        { accounts := none, transactions := none, slots := none, pong := none }
      = []
  ∧ sessionRun
        [{ accounts := none, transactions := none, slots := none, pong := none },
         { accounts := none, transactions := none, slots := none
           pong := some { id := 1 } }] .clean (fun k => k) (fun _ => true) 0
      = sessionRun
        [{ accounts := none, transactions := none, slots := none
           pong := some { id := 1 } }] .clean (fun k => k) (fun _ => true) 0 :=
  ⟨(empty_frame_zero_obs_loop_continues
      { accounts := none, transactions := none, slots := none, pong := none }
      rfl rfl rfl rfl).1,
   (empty_frame_zero_obs_loop_continues
      { accounts := none, transactions := none, slots := none, pong := none }
      rfl rfl rfl rfl).2
      [{ accounts := none, transactions := none, slots := none
         pong := some { id := 1 } }] .clean (fun k => k) (fun _ => true) 0⟩

/-- C9 as stated is false on the code: the interval's first tick completes
immediately, so once 3 periods of 30 time-units have elapsed the ticks at
times 0, 30, 60 and 90 have all fired and 4 pings were sent, not 3. -/
theorem heartbeat_three_periods_counterexample :
    ((heartbeatRun (fun k => tickTime PING_INTERVAL_SECS k) (fun _ => true)
        (ticksElapsedBy PING_INTERVAL_SECS (3 * PING_INTERVAL_SECS))).2).length
      ≠ 3 := by
  decide

/-- C9 amended: with the configured period of 30 time-units and no send
failures, once 3 periods have elapsed the heartbeat has sent exactly 4 pings
(at times 0, 30, 60 and 90 from session start, the first tick firing
immediately), and their ids strictly increase when the wall clock starts at
`t0` and tracks tick time. -/
theorem heartbeat_three_periods (t0 : Nat) :
    (heartbeatRun (fun k => t0 + tickTime PING_INTERVAL_SECS k) (fun _ => true)
        (ticksElapsedBy PING_INTERVAL_SECS (3 * PING_INTERVAL_SECS))).2
      = [t0, t0 + 30, t0 + 60, t0 + 90]
  ∧ ((heartbeatRun (fun k => t0 + tickTime PING_INTERVAL_SECS k)
        (fun _ => true)
        (ticksElapsedBy PING_INTERVAL_SECS (3 * PING_INTERVAL_SECS))).2).length
      = 4
  ∧ List.Chain' (· < ·)
      (heartbeatRun (fun k => t0 + tickTime PING_INTERVAL_SECS k)
        (fun _ => true)
        (ticksElapsedBy PING_INTERVAL_SECS (3 * PING_INTERVAL_SECS))).2 := by
  have h4 : ticksElapsedBy PING_INTERVAL_SECS (3 * PING_INTERVAL_SECS) = 4 := by
    decide
  have hp : (heartbeatRun (fun k => t0 + tickTime PING_INTERVAL_SECS k)
      (fun _ => true)
      (ticksElapsedBy PING_INTERVAL_SECS (3 * PING_INTERVAL_SECS))).2
      = [t0, t0 + 30, t0 + 60, t0 + 90] := by
    rw [h4]
    simp [heartbeatRun, tickTime, PING_INTERVAL_SECS]
  refine ⟨hp, by rw [hp]; rfl, ?_⟩
  rw [hp]
  simp [List.chain'_cons]

/-- C10: constructing a heartbeat ping is partial in the clock — a clock
reading strictly before the Unix epoch makes the `unwrap` panic (no request is
produced), while any reading at or after the epoch produces the ping whose id
is the elapsed whole seconds. -/
theorem ping_request_epoch_guard (now : Int) :
    (now < 0 → ping_request now = none)
  ∧ (0 ≤ now → ping_request now
        = some { SubscribeRequest.default with
                 ping := some { id := now.toNat } }) := by
  constructor
  · intro h
    have hn : ¬ (0 ≤ now) := by omega
    simp [ping_request, duration_since_epoch, hn]
  · intro h
    simp [ping_request, duration_since_epoch, h]

/-- Witness for C10 at concrete clock readings: one second before the epoch
the construction panics; five seconds after it produces the id-5 ping. -/
theorem ping_request_epoch_guard_witness :
    ping_request (-1) = none
  ∧ ping_request 5
      = some { SubscribeRequest.default with ping := some { id := 5 } } :=
  ⟨(ping_request_epoch_guard (-1)).1 (by decide),
   (ping_request_epoch_guard 5).2 (by decide)⟩
